import Mathlib

/-!
# Verification of the phone-contract billing model and call filters

Shallow embedding of `src/contract.py` and `src/filter.py` from the
mobile-companytracker repository.  Python floats are modelled as exact
rationals (`ℚ`), call durations and minute counts as natural numbers,
Python `None` as `Option`, and a Python operation that can raise an
exception is modelled as a function into `Option` where `none` means the
exception escaped.
-/

/-- Constants from `contract.py` (monetary amounts as rationals). -/
def MTM_MONTHLY_FEE : ℚ := 50

def TERM_MONTHLY_FEE : ℚ := 20

def TERM_DEPOSIT : ℚ := 300

def TERM_MINS : ℕ := 100

def MTM_MINS_COST : ℚ := 1/20

def TERM_MINS_COST : ℚ := 1/10

def PREPAID_MINS_COST : ℚ := 1/40

/-- A calendar date as used by `contract.py`: only the month and year
components of `datetime.date` are ever read. -/
structure Date where
  month : ℕ
  year : ℕ
deriving DecidableEq, Repr

/-- Modelled from the spec: `bill.py` is not among the sources.  Per §3/§4.1 a
Bill is a mutable per-month record of fixed costs, free minutes used, billed
minutes, a per-minute rate and a plan label.  The fields `fixed_cost` and
`free_min` keep the names under which `contract.py` accesses them directly. -/
structure Bill where
  fixed_cost : ℚ
  free_min : ℕ
  billed_min : ℕ
  rate : ℚ
  plan_label : String
deriving DecidableEq, Repr

/-- Modelled from the spec: `Bill.set_rates` stores the plan label and the
per-minute rate (§4.1 `set_rate`). -/
def Bill.set_rates (b : Bill) (label : String) (r : ℚ) : Bill :=
  { b with plan_label := label, rate := r }

/-- Modelled from the spec: adds an amount (possibly negative) to the fixed
cost (§4.1 `add_fixed_cost`). -/
def Bill.add_fixed_cost (b : Bill) (amount : ℚ) : Bill :=
  { b with fixed_cost := b.fixed_cost + amount }

/-- Modelled from the spec: increases the free minutes used (§4.1
`add_free_minutes`). -/
def Bill.add_free_minutes (b : Bill) (m : ℕ) : Bill :=
  { b with free_min := b.free_min + m }

/-- Modelled from the spec: increases the billed minutes (§4.1
`add_billed_minutes`). -/
def Bill.add_billed_minutes (b : Bill) (m : ℕ) : Bill :=
  { b with billed_min := b.billed_min + m }

/-- Modelled from the spec: total cost = fixed_cost + billed_minutes ×
rate_per_minute (§4.1 `get_total_cost`; called `get_cost` in `contract.py`). -/
def Bill.get_cost (b : Bill) : ℚ :=
  b.fixed_cost + b.billed_min * b.rate

/-- Modelled from the spec: a freshly created, empty Bill as handed in by the
driver at each month advance (§4.2 precondition of `advance_month`). -/
def Bill.empty : Bill :=
  { fixed_cost := 0, free_min := 0, billed_min := 0, rate := 0, plan_label := "" }

/-- `ceil(duration / 60)` for a non-negative integer number of seconds, as
computed by `math.ceil` in `contract.py`. -/
def ceilMin (d : ℕ) : ℕ := (d + 59) / 60

/-- `Contract.bill_call` (lines 57-65): adds `ceil(call.duration / 60.0)`
billed minutes to the bill.  This base policy is what `MTMContract` uses. -/
def billCallBase (b : Bill) (duration : ℕ) : Bill :=
  b.add_billed_minutes (ceilMin duration)

/-- `MTMContract.new_month` (lines 166-174): set the MTM rate and add the
monthly fee to the stored bill. -/
def mtmNewMonth (bill : Bill) : Bill :=
  (bill.set_rates "MTM" MTM_MINS_COST).add_fixed_cost MTM_MONTHLY_FEE

/-- State of a `TermContract`: `start` and `end` are `datetime.date` values
that the code may overwrite with `None`, `bill` may be `None` before the first
month, and `_current` is the `[month, year]` list kept as a pair. -/
structure TermContract where
  start : Option Date
  bill : Option Bill
  end_ : Option Date
  current : ℕ × ℕ
deriving DecidableEq, Repr

/-- `TermContract.new_month` (lines 109-120): store the bill, add the monthly
fee, set the TERM rates, add the deposit when `(month, year)` equals the start
date's `(month, year)`, and record `(month, year)` as the current period.
Reading `self.start.month` when `start` is `None` would raise, hence the
`Option` result. -/
def termNewMonth (c : TermContract) (month year : ℕ) (bill : Bill) :
    Option TermContract :=
  match c.start with
  | none => none
  | some s =>
    let b1 := (bill.add_fixed_cost TERM_MONTHLY_FEE).set_rates "TERM" TERM_MINS_COST
    let b2 := if month = s.month ∧ year = s.year
              then b1.add_fixed_cost TERM_DEPOSIT else b1
    some { c with bill := some b2, current := (month, year) }

/-- `TermContract.bill_call` (lines 122-134) acting on the current bill: add
the call's minutes as free minutes, then move any excess over `TERM_MINS`
into billed minutes and cap `free_min` at `TERM_MINS`. -/
def termBillCall (b : Bill) (duration : ℕ) : Bill :=
  let b1 := b.add_free_minutes (ceilMin duration)
  if b1.free_min > TERM_MINS then
    { (b1.add_billed_minutes (b1.free_min - TERM_MINS)) with free_min := TERM_MINS }
  else b1

/-- `TermContract.cancel_contract` (lines 136-153): line 146 sets
`self.start = None`, line 147 sets `self.end = None`, and line 148 immediately
reads `self.end.month`.  Reading `.month` of `None` raises `AttributeError`,
modelled by the `none` branch of the match on the just-assigned `end_`.  The
`some` branch spells out the refund comparison the remaining lines would
perform, but it is unreachable because `end_` was just set to `none`. -/
def termCancel (c : TermContract) : Option (TermContract × ℚ) :=
  let c1 : TermContract := { c with start := none }
  let c2 : TermContract := { c1 with end_ := none }
  match c2.end_ with
  | none => none
  | some e =>
    match c2.bill with
    | none => none
    | some b =>
      let b' := if e.month < c2.current.1 ∧ e.year = c2.current.2 then
                  { b with fixed_cost := b.fixed_cost - TERM_DEPOSIT }
                else if e.year < c2.current.2 then
                  { b with fixed_cost := b.fixed_cost - TERM_DEPOSIT }
                else b
      some ({ c2 with bill := some b' }, b'.get_cost)

/-- Billing a whole month of term-contract calls (durations in seconds) onto a
fresh bill, one `termBillCall` per call in arrival order. -/
def termBillCalls (ds : List ℕ) : Bill :=
  ds.foldl termBillCall Bill.empty

/-- The sum of ceiling-rounded minutes of a list of call durations. -/
def sumCeil (ds : List ℕ) : ℕ :=
  (ds.map ceilMin).sum

/-- The fixed costs of the bills produced by a sequence of term-contract month
advances, each advance receiving a fresh empty bill from the driver (§6). -/
def termAdvanceTrace (c : TermContract) : List (ℕ × ℕ) → Option (List ℚ)
  | [] => some []
  | (m, y) :: rest =>
    match termNewMonth c m y Bill.empty with
    | none => none
    | some c' =>
      match c'.bill with
      | none => none
      | some b => (termAdvanceTrace c' rest).map (fun tr => b.fixed_cost :: tr)

/-- State of a `PrepaidContract`: the start date (cleared to `None` on
cancellation), the optional current bill, and the private balance. -/
structure PrepaidContract where
  start : Option Date
  bill : Option Bill
  _balance : ℚ
deriving DecidableEq, Repr

/-- `PrepaidContract.new_month` (lines 206-223): store the bill, set the
PREPAID rates, then: if the balance is greater than -10, either charge the
balance as fixed cost (start month) or subtract 25 from the balance and charge
`25 + balance` (any other month); otherwise charge the balance as fixed cost.
The `balance > -10` branch reads `self.start.month`, which raises when `start`
is `None`, hence the `Option`. -/
def prepaidNewMonth (c : PrepaidContract) (month year : ℕ) (bill : Bill) :
    Option PrepaidContract :=
  let b1 := bill.set_rates "PREPAID" PREPAID_MINS_COST
  if c._balance > -10 then
    match c.start with
    | none => none
    | some s =>
      if month = s.month ∧ year = s.year then
        some { c with bill := some (b1.add_fixed_cost c._balance) }
      else
        let nb := c._balance - 25
        some { c with _balance := nb, bill := some (b1.add_fixed_cost (25 + nb)) }
  else
    some { c with bill := some (b1.add_fixed_cost c._balance) }

/-- `PrepaidContract.bill_call` (lines 225-235) acting on the bill and
balance: apply the base billing policy, then debit the balance by
`ceil(duration/60) * PREPAID_MINS_COST`. -/
def prepaidBillCall (c : PrepaidContract) (b : Bill) (duration : ℕ) :
    PrepaidContract × Bill :=
  ({ c with _balance := c._balance + ceilMin duration * PREPAID_MINS_COST },
   billCallBase b duration)

/-- `PrepaidContract.cancel_contract` (lines 237-251): clear `start`, then
return 0 when the balance is negative, and otherwise the bill's total cost
(reading `get_cost` of a `None` bill would raise, hence the `Option`). -/
def prepaidCancel (c : PrepaidContract) : Option (PrepaidContract × ℚ) :=
  let c1 : PrepaidContract := { c with start := none }
  if c._balance < 0 then some (c1, 0)
  else
    match c1.bill with
    | none => none
    | some b => some (c1, b.get_cost)

/-- Modelled from the spec: `call.py` is not among the sources.  Per §3 a Call
carries a non-negative duration in seconds, source/destination numbers and
source/destination (longitude, latitude) locations, all read-only. -/
structure Call where
  duration : ℕ
  src_number : String
  dst_number : String
  src_loc : ℚ × ℚ
  dst_loc : ℚ × ℚ
deriving DecidableEq, Repr

/-- Modelled from the spec: `customer.py` is not among the sources.  Per §6 and
the uses in `filter.py`, a Customer exposes a numeric id (`get_id`) and its
phone numbers (`get_phone_numbers`). -/
structure Customer where
  id : ℕ
  phone_numbers : List String
deriving DecidableEq, Repr

/-- Python `str.isalpha` restricted to ASCII: non-empty and all letters. -/
def pyIsAlpha (s : String) : Bool :=
  !s.data.isEmpty && s.data.all Char.isAlpha

/-- Python `str.isnumeric` restricted to ASCII: non-empty and all digits. -/
def pyIsNumeric (s : String) : Bool :=
  !s.data.isEmpty && s.data.all Char.isDigit

/-- Value of a list of decimal digit characters. -/
def digitsVal (l : List Char) : ℕ :=
  l.foldl (fun a c => a * 10 + (c.toNat - 48)) 0

/-- Python `int(s)` on a string: optional sign then at least one digit, or a
`ValueError` (`none`).  Surrounding whitespace, accepted by Python, is not
modelled; no input in `filter.py`'s slices contains it. -/
def pyIntOpt (s : String) : Option ℤ :=
  match s.data with
  | '-' :: r =>
    if !r.isEmpty && r.all Char.isDigit then some (-(digitsVal r : ℤ)) else none
  | '+' :: r =>
    if !r.isEmpty && r.all Char.isDigit then some (digitsVal r) else none
  | r =>
    if !r.isEmpty && r.all Char.isDigit then some (digitsVal r) else none

/-- Python `float(s)` on a string: optional sign, integer digits, an optional
point with fractional digits, at least one digit overall; anything else is a
`ValueError` (`none`).  Exponents, inf/nan and surrounding whitespace are not
modelled; no claim depends on them. -/
def parseFloat (s : String) : Option ℚ :=
  let p : ℚ × List Char :=
    match s.data with
    | '-' :: r => (-1, r)
    | '+' :: r => (1, r)
    | r => (1, r)
  let ip := p.2.takeWhile Char.isDigit
  let r1 := p.2.dropWhile Char.isDigit
  match r1 with
  | [] => if ip.isEmpty then none else some (p.1 * digitsVal ip)
  | '.' :: r2 =>
    if r2.all Char.isDigit && !(ip.isEmpty && r2.isEmpty) then
      some (p.1 * (digitsVal ip + (digitsVal r2 : ℚ) / 10 ^ r2.length))
    else none
  | _ => none

/-- Python slice `s[a:b]`. -/
def pySlice (s : String) (a b : ℕ) : String :=
  ⟨(s.data.drop a).take (b - a)⟩

/-- Python slice `s[a:]`. -/
def pySliceFrom (s : String) (a : ℕ) : String :=
  ⟨s.data.drop a⟩

/-- The per-call loop of `DurationFilter.apply` (lines 149-161): for each call
`int(filter_string[1:])` is evaluated (a `ValueError` escapes, `none`), the
range `0 ≤ n ≤ 999` is checked (out of range returns the original data), and
the call is kept according to the `G`/`L` comparison; any other first
character returns the original data. -/
def durationLoop (fs : String) (data : List Call) :
    List Call → List Call → Option (List Call)
  | [], acc => some acc.reverse
  | c :: rest, acc =>
    match pyIntOpt (pySliceFrom fs 1) with
    | none => none
    | some n =>
      if 0 ≤ n ∧ n ≤ 999 then
        match fs.data with
        | [] => none
        | ch :: _ =>
          if ch = 'G' then
            durationLoop fs data rest (if n < (c.duration : ℤ) then c :: acc else acc)
          else if ch = 'L' then
            durationLoop fs data rest (if (c.duration : ℤ) < n then c :: acc else acc)
          else some data
      else some data

/-- `DurationFilter.apply` (lines 128-161): return the data unchanged when
`filter_string[1:]` is alphabetic or the string is empty, otherwise run the
per-call loop and return the collected list (even when it is empty). -/
def durationApply (data : List Call) (fs : String) : Option (List Call) :=
  if pyIsAlpha (pySliceFrom fs 1) || fs.data.isEmpty then some data
  else durationLoop fs data data []

/-- The phone numbers bound to `num` in `CustomerFilter.apply` (lines
104-108): the last customer in the list whose id equals the parsed filter
string, or the initial empty list. -/
def customerNumbers (customers : List Customer) (n : ℕ) : List String :=
  customers.foldl (fun acc det => if det.id = n then det.phone_numbers else acc) []

/-- The match test of `CustomerFilter.apply` (line 110): the call's source or
destination number is among the customer's numbers. -/
def customerMatches (num : List String) (c : Call) : Bool :=
  num.contains c.src_number || num.contains c.dst_number

/-- `CustomerFilter.apply` (lines 83-114): non-numeric strings return the data
unchanged; otherwise the calls matching the customer's numbers are collected,
and an empty result falls back to the original data. -/
def customerApply (customers : List Customer) (data : List Call) (fs : String) :
    List Call :=
  if !(pyIsNumeric fs) then data
  else
    let num := customerNumbers customers (digitsVal fs.data)
    let data1 := data.filter (customerMatches num)
    if data1.isEmpty then data else data1

/-- The match test of `LocationFilter.apply`'s loop (lines 207-217): the
source location inside the open rectangle; otherwise, the destination inside
the open rectangle (the `elif` only runs when the source longitude test
fails). -/
def locMatches (a b lo hi : ℚ) (c : Call) : Bool :=
  if a < c.src_loc.1 ∧ c.src_loc.1 < b then
    decide (lo < c.src_loc.2 ∧ c.src_loc.2 < hi)
  else
    decide (a < c.dst_loc.1 ∧ c.dst_loc.1 < b ∧ lo < c.dst_loc.2 ∧ c.dst_loc.2 < hi)

/-- `LocationFilter.apply` (lines 175-220): the four slices of the filter
string are parsed by `float` in the short-circuit order of line 203-206 (a
`ValueError` escapes, `none`); if every boundary check passes the calls are
filtered by `locMatches`, and in every non-raising path an empty collected
list falls back to the original data. -/
def locationApply (data : List Call) (fs : String) : Option (List Call) :=
  match parseFloat (pySlice fs 0 5) with
  | none => none
  | some a =>
    if -79697878/1000000 < a then
      match parseFloat (pySlice fs 13 18) with
      | none => none
      | some b =>
        if b < -79196382/1000000 then
          match parseFloat (pySlice fs 7 11) with
          | none => none
          | some lo =>
            if 43576959/1000000 < lo then
              match parseFloat (pySliceFrom fs 20) with
              | none => none
              | some hi =>
                if hi < 43799568/1000000 then
                  let data1 := data.filter (locMatches a b lo hi)
                  some (if data1.isEmpty then data else data1)
                else some data
            else some data
        else some data
    else some data

/-! ## Theorems -/

lemma ceilMin_eq_ceil (d : ℕ) : ceilMin d = ⌈(d : ℚ) / 60⌉₊ := by
  have h60 : (0 : ℚ) < 60 := by norm_num
  apply le_antisymm
  · have h1 : (d : ℚ) / 60 ≤ (⌈(d : ℚ) / 60⌉₊ : ℚ) := Nat.le_ceil _
    have h2 : (d : ℚ) ≤ (⌈(d : ℚ) / 60⌉₊ : ℚ) * 60 := (div_le_iff₀ h60).mp h1
    have h3 : d ≤ ⌈(d : ℚ) / 60⌉₊ * 60 := by exact_mod_cast h2
    show (d + 59) / 60 ≤ _
    omega
  · apply Nat.ceil_le.mpr
    have h4 : d ≤ ((d + 59) / 60) * 60 := by omega
    have h5 : (d : ℚ) ≤ (((d + 59) / 60 : ℕ) : ℚ) * 60 := by exact_mod_cast h4
    exact (div_le_iff₀ h60).mpr h5

/-- C7: billing a call of `d` seconds under the base policy (used by
month-to-month contracts) adds exactly `⌈d / 60⌉` billed minutes to the bill
and changes nothing else: no free minutes and no fixed cost are added. -/
theorem C7_mtm_bill_call (b : Bill) (d : ℕ) :
    billCallBase b d = { b with billed_min := b.billed_min + ⌈(d : ℚ) / 60⌉₊ } := by
  unfold billCallBase Bill.add_billed_minutes
  rw [ceilMin_eq_ceil]

/-- C2: whenever `TermContract.cancel_contract` is invoked (in particular
whenever its precondition of an existing current bill holds), it never
returns a value: line 147 assigns `None` to `self.end` and line 148 reads
`self.end.month`, so the attribute access on `None` raises on every
invocation. -/
theorem C2_term_cancel_never_returns (c : TermContract) : termCancel c = none := rfl

/-- C1: evaluating `TermContract.cancel_contract` at a concrete contract whose
cancellation falls after the end date (start December 2019, end June 2020,
current period January 2021, current bill holding the monthly fee): the
documented refund policy would subtract the deposit and return a total, but
the code raises `AttributeError` (modelled `none`) before reaching the
comparison. -/
theorem C1_term_cancel_crashes_at_refund_input :
    termCancel ⟨some ⟨12, 2019⟩, some (Bill.empty.add_fixed_cost TERM_MONTHLY_FEE),
                some ⟨6, 2020⟩, (1, 2021)⟩ = none := rfl

/-- C3: on the invalid filter strings `"L5a"` (DurationFilter) and `"abc"`
(LocationFilter) with a non-empty call list, `apply` does not return the input
unchanged: `int("5a")` respectively `float("abc")` raise `ValueError`
(modelled `none`), contradicting the documented no-crash requirement. -/
theorem C3_invalid_filter_string_raises :
    durationApply [⟨10, "s", "d", (0, 0), (0, 0)⟩] "L5a" = none ∧
    locationApply [⟨10, "s", "d", (0, 0), (0, 0)⟩] "abc" = none := by
  exact ⟨rfl, rfl⟩

lemma termBillCall_step (b : Bill) (d t : ℕ)
    (hf : b.free_min = min t TERM_MINS)
    (hb : b.billed_min = t - min t TERM_MINS) :
    (termBillCall b d).free_min = min (t + ceilMin d) TERM_MINS ∧
    (termBillCall b d).billed_min = (t + ceilMin d) - min (t + ceilMin d) TERM_MINS := by
  unfold termBillCall Bill.add_free_minutes Bill.add_billed_minutes TERM_MINS
  unfold TERM_MINS at hf hb
  dsimp only
  split_ifs with h
  · constructor <;> simp <;> omega
  · constructor <;> simp <;> omega

lemma termBillCalls_aux (ds : List ℕ) (b : Bill) (t : ℕ)
    (hf : b.free_min = min t TERM_MINS)
    (hb : b.billed_min = t - min t TERM_MINS) :
    (ds.foldl termBillCall b).free_min = min (t + sumCeil ds) TERM_MINS ∧
    (ds.foldl termBillCall b).billed_min =
      (t + sumCeil ds) - min (t + sumCeil ds) TERM_MINS := by
  induction ds generalizing b t with
  | nil =>
    simp only [List.foldl_nil, sumCeil, List.map_nil, List.sum_nil, Nat.add_zero]
    exact ⟨hf, hb⟩
  | cons d rest ih =>
    have step := termBillCall_step b d t hf hb
    have h := ih (termBillCall b d) (t + ceilMin d) step.1 step.2
    simp only [List.foldl_cons, sumCeil, List.map_cons, List.sum_cons] at h ⊢
    obtain ⟨h1, h2⟩ := h
    constructor <;> omega

lemma termBillCalls_closed (ds : List ℕ) :
    (termBillCalls ds).free_min = min (sumCeil ds) TERM_MINS ∧
    (termBillCalls ds).billed_min = sumCeil ds - min (sumCeil ds) TERM_MINS := by
  have h := termBillCalls_aux ds Bill.empty 0 (by simp [Bill.empty]) (by simp [Bill.empty])
  simpa using h

/-- C5 counterexample: for the single 60-second call the bill carries 0 billed
minutes while the claimed bound `sum of ceilings − 100` is −99 over the
integers, so `billed ≤ sum − 100` fails as stated. -/
theorem C5_counterexample :
    ¬ (((termBillCalls [60]).billed_min : ℤ) ≤ (sumCeil [60] : ℤ) - (TERM_MINS : ℤ)) := by
  decide

/-- C5 (amended): for every sequence of calls in a month on a term contract,
after every `bill_call` the bill's `free_min` is at most 100, and the final
billed minutes accumulated from overflow are at most `max 0 (sum of
ceil(d/60) − 100)` — the original bound `sum − 100` is negative when the
free allowance is not exhausted. -/
theorem C5_term_free_cap_and_overflow_bound (ds : List ℕ) :
    (∀ n : ℕ, (termBillCalls (ds.take n)).free_min ≤ TERM_MINS) ∧
    ((termBillCalls ds).billed_min : ℤ) ≤
      max 0 ((sumCeil ds : ℤ) - (TERM_MINS : ℤ)) := by
  constructor
  · intro n
    have h := (termBillCalls_closed (ds.take n)).1
    omega
  · have h := (termBillCalls_closed ds).2
    omega

lemma termAdvanceTrace_eq (s : Date) (l : List (ℕ × ℕ)) :
    ∀ c : TermContract, c.start = some s →
    termAdvanceTrace c l =
      some (l.map (fun p => if p.1 = s.month ∧ p.2 = s.year
                            then TERM_MONTHLY_FEE + TERM_DEPOSIT
                            else TERM_MONTHLY_FEE)) := by
  induction l with
  | nil => intro c _; rfl
  | cons p rest ih =>
    intro c hc
    obtain ⟨m, y⟩ := p
    have hrec := ih { c with bill := some (if m = s.month ∧ y = s.year
        then ((Bill.empty.add_fixed_cost TERM_MONTHLY_FEE).set_rates "TERM"
                TERM_MINS_COST).add_fixed_cost TERM_DEPOSIT
        else (Bill.empty.add_fixed_cost TERM_MONTHLY_FEE).set_rates "TERM"
                TERM_MINS_COST), current := (m, y) } hc
    by_cases hmy : m = s.month ∧ y = s.year
    · simp only [termAdvanceTrace, termNewMonth, hc, if_pos hmy] at hrec ⊢
      rw [hrec]
      simp [Bill.add_fixed_cost, Bill.set_rates, Bill.empty, hmy]
    · simp only [termAdvanceTrace, termNewMonth, hc, if_neg hmy] at hrec ⊢
      rw [hrec]
      simp [Bill.add_fixed_cost, Bill.set_rates, Bill.empty, hmy]

/-- C6: along any sequence of month advances in which each (month, year) is
advanced at most once and the contract's start month is among them, the fixed
cost charged by the advance equals fee + deposit exactly once — and only the
advance at `(start.month, start.year)` charges it; every other advance charges
only the monthly fee. -/
theorem C6_term_deposit_charged_once (c : TermContract) (s : Date)
    (l : List (ℕ × ℕ)) (hc : c.start = some s) (hnd : l.Nodup)
    (hmem : (s.month, s.year) ∈ l) :
    termAdvanceTrace c l =
      some (l.map (fun p => if p.1 = s.month ∧ p.2 = s.year
                            then TERM_MONTHLY_FEE + TERM_DEPOSIT
                            else TERM_MONTHLY_FEE)) ∧
    (l.map (fun p => if p.1 = s.month ∧ p.2 = s.year
                     then TERM_MONTHLY_FEE + TERM_DEPOSIT
                     else TERM_MONTHLY_FEE)).count
      (TERM_MONTHLY_FEE + TERM_DEPOSIT) = 1 := by
  refine ⟨termAdvanceTrace_eq s l c hc, ?_⟩
  rw [List.count, List.countP_map]
  have hcongr : ∀ p ∈ l,
      (((fun x => x == TERM_MONTHLY_FEE + TERM_DEPOSIT) ∘
        (fun p : ℕ × ℕ => if p.1 = s.month ∧ p.2 = s.year
                          then TERM_MONTHLY_FEE + TERM_DEPOSIT
                          else TERM_MONTHLY_FEE)) p = true ↔
       (fun q : ℕ × ℕ => decide (q = (s.month, s.year))) p = true) := by
    intro p _
    by_cases h : p.1 = s.month ∧ p.2 = s.year
    · have hp : p = (s.month, s.year) := Prod.ext h.1 h.2
      simp [Function.comp_apply, if_pos h, hp]
    · have h1 : TERM_MONTHLY_FEE ≠ TERM_MONTHLY_FEE + TERM_DEPOSIT := by
        unfold TERM_MONTHLY_FEE TERM_DEPOSIT; norm_num
      have h2 : p ≠ (s.month, s.year) := by
        intro he; exact h ⟨by rw [he], by rw [he]⟩
      simp [Function.comp_apply, if_neg h, h1, h2]
  rw [List.countP_congr hcongr]
  exact List.count_eq_one_of_mem hnd hmem

/-- Witness for C6 at a concrete term contract (start January 2020) advanced
through January and February 2020. -/
theorem C6_term_deposit_charged_once_witness :
    termAdvanceTrace ⟨some ⟨1, 2020⟩, none, some ⟨6, 2020⟩, (1, 2020)⟩
        [(1, 2020), (2, 2020)] =
      some ([(1, 2020), (2, 2020)].map
        (fun p => if p.1 = (1 : ℕ) ∧ p.2 = (2020 : ℕ)
                  then TERM_MONTHLY_FEE + TERM_DEPOSIT
                  else TERM_MONTHLY_FEE)) ∧
    ([(1, 2020), (2, 2020)].map
        (fun p => if p.1 = (1 : ℕ) ∧ p.2 = (2020 : ℕ)
                  then TERM_MONTHLY_FEE + TERM_DEPOSIT
                  else TERM_MONTHLY_FEE)).count
      (TERM_MONTHLY_FEE + TERM_DEPOSIT) = 1 :=
  C6_term_deposit_charged_once ⟨some ⟨1, 2020⟩, none, some ⟨6, 2020⟩, (1, 2020)⟩
    ⟨1, 2020⟩ [(1, 2020), (2, 2020)] rfl (by decide) (by decide)

/-- C4 counterexample: a prepaid contract started January 2020 with balance
-5, advanced to February 2020 on a fresh bill.  The claim predicts the balance
becomes -5 + 25 = 20 and that this new balance is the fixed cost charged; the
code instead leaves the balance at -30 and charges -5 (the pre-top-up
balance). -/
theorem C4_counterexample :
    ¬ ((prepaidNewMonth ⟨some ⟨1, 2020⟩, none, -5⟩ 2 2020 Bill.empty).map
         (fun c => (c._balance, c.bill.map Bill.fixed_cost)) =
       some (((-5 : ℚ) + 25, some ((-5 : ℚ) + 25)))) := by
  have hcomp : prepaidNewMonth ⟨some ⟨1, 2020⟩, none, -5⟩ 2 2020 Bill.empty =
      some ⟨some ⟨1, 2020⟩, some ⟨-5, 0, 0, 1/40, "PREPAID"⟩, -30⟩ := by
    unfold prepaidNewMonth Bill.set_rates Bill.add_fixed_cost Bill.empty PREPAID_MINS_COST
    norm_num
  rw [hcomp]
  simp [Bill.fixed_cost]

/-- C4 (amended): for every prepaid contract whose balance is strictly
greater than -10 at a month advance that is not the start (month, year),
`new_month` subtracts 25 from the balance (the forced top-up of 25 recorded
as credit) and then adds `25 + new balance` — which equals the pre-top-up
balance — to the bill's fixed cost. -/
theorem C4_prepaid_topup (c : PrepaidContract) (s : Date) (m y : ℕ) (bill : Bill)
    (hs : c.start = some s) (hb : c._balance > -10)
    (hnot : ¬(m = s.month ∧ y = s.year)) :
    prepaidNewMonth c m y bill =
      some { c with _balance := c._balance - 25,
                    bill := some ((bill.set_rates "PREPAID"
                      PREPAID_MINS_COST).add_fixed_cost (25 + (c._balance - 25))) } := by
  unfold prepaidNewMonth
  rw [if_pos hb, hs]
  simp [if_neg hnot]

/-- Witness for C4 at the concrete contract of the counterexample. -/
theorem C4_prepaid_topup_witness :
    prepaidNewMonth ⟨some ⟨1, 2020⟩, none, -5⟩ 2 2020 Bill.empty =
      some { start := some ⟨1, 2020⟩,
             bill := some ((Bill.empty.set_rates "PREPAID"
               PREPAID_MINS_COST).add_fixed_cost (25 + ((-5 : ℚ) - 25))),
             _balance := (-5 : ℚ) - 25 } :=
  C4_prepaid_topup ⟨some ⟨1, 2020⟩, none, -5⟩ ⟨1, 2020⟩ 2 2020 Bill.empty rfl
    (by norm_num) (by decide)

/-- C8: for every prepaid contract whose balance is at or below -10 at a month
advance, `new_month` adds exactly the current (negative) balance to the
bill's fixed cost and leaves the balance unchanged. -/
theorem C8_prepaid_credit_charged (c : PrepaidContract) (m y : ℕ) (bill : Bill)
    (h : c._balance ≤ -10) :
    prepaidNewMonth c m y bill =
      some { c with bill := some ((bill.set_rates "PREPAID"
               PREPAID_MINS_COST).add_fixed_cost c._balance) } := by
  unfold prepaidNewMonth
  rw [if_neg (not_lt.mpr h)]

/-- Witness for C8 at a concrete contract with balance -40. -/
theorem C8_prepaid_credit_charged_witness :
    prepaidNewMonth ⟨some ⟨1, 2020⟩, none, -40⟩ 2 2020 Bill.empty =
      some { start := some ⟨1, 2020⟩,
             bill := some ((Bill.empty.set_rates "PREPAID"
               PREPAID_MINS_COST).add_fixed_cost (-40)),
             _balance := (-40 : ℚ) } :=
  C8_prepaid_credit_charged ⟨some ⟨1, 2020⟩, none, -40⟩ 2 2020 Bill.empty
    (by norm_num)

/-- C9: for every prepaid contract with a current bill, `cancel_contract`
returns 0 when the balance is strictly negative (regardless of the bill's
total) and the bill's total cost when the balance is non-negative; in both
cases the contract is closed (`start` cleared). -/
theorem C9_prepaid_cancel (c : PrepaidContract) (b : Bill) (hb : c.bill = some b) :
    (c._balance < 0 → prepaidCancel c = some ({ c with start := none }, 0)) ∧
    (0 ≤ c._balance → prepaidCancel c = some ({ c with start := none }, b.get_cost)) := by
  constructor
  · intro h
    unfold prepaidCancel
    rw [if_pos h]
  · intro h
    unfold prepaidCancel
    rw [if_neg (not_lt.mpr h)]
    simp [hb]

/-- Witness for C9: a contract with credit (balance -5) owes 0 on
cancellation, and one with non-negative balance owes the bill total. -/
theorem C9_prepaid_cancel_witness :
    prepaidCancel ⟨some ⟨1, 2020⟩, some (Bill.empty.add_fixed_cost 7), -5⟩ =
      some (⟨none, some (Bill.empty.add_fixed_cost 7), -5⟩, 0) ∧
    prepaidCancel ⟨some ⟨1, 2020⟩, some (Bill.empty.add_fixed_cost 7), 5⟩ =
      some (⟨none, some (Bill.empty.add_fixed_cost 7), 5⟩,
            (Bill.empty.add_fixed_cost 7).get_cost) :=
  ⟨(C9_prepaid_cancel ⟨some ⟨1, 2020⟩, some (Bill.empty.add_fixed_cost 7), -5⟩
      (Bill.empty.add_fixed_cost 7) rfl).1 (by norm_num),
   (C9_prepaid_cancel ⟨some ⟨1, 2020⟩, some (Bill.empty.add_fixed_cost 7), 5⟩
      (Bill.empty.add_fixed_cost 7) rfl).2 (by norm_num)⟩

/-- C10: on a syntactically valid filter string under which no call matches,
`CustomerFilter.apply` and `LocationFilter.apply` both fall back to the entire
original calls list instead of returning the empty list, so an empty match
result is indistinguishable from an invalid filter. -/
theorem C10_empty_match_returns_input
    (customers : List Customer) (data : List Call) (fs : String)
    (a b lo hi : ℚ) (gs : String)
    (hnum : pyIsNumeric fs = true)
    (hcm : data.filter (customerMatches
             (customerNumbers customers (digitsVal fs.data))) = [])
    (hp1 : parseFloat (pySlice gs 0 5) = some a)
    (hp2 : parseFloat (pySlice gs 13 18) = some b)
    (hp3 : parseFloat (pySlice gs 7 11) = some lo)
    (hp4 : parseFloat (pySliceFrom gs 20) = some hi)
    (hb1 : -79697878/1000000 < a) (hb2 : b < -79196382/1000000)
    (hb3 : 43576959/1000000 < lo) (hb4 : hi < 43799568/1000000)
    (hlm : data.filter (locMatches a b lo hi) = []) :
    customerApply customers data fs = data ∧
    locationApply data gs = some data := by
  constructor
  · unfold customerApply
    rw [hnum]
    rw [if_neg (by simp)]
    simp only [hcm]
    rfl
  · unfold locationApply
    simp only [hp1, hp2, hp3, hp4]
    rw [if_pos hb1, if_pos hb2, if_pos hb3, if_pos hb4]
    simp only [hlm]
    rfl

/-- Witness for C10: a customer whose numbers match no call and a rectangle
containing no call location both return the original one-call list. -/
theorem C10_empty_match_returns_input_witness :
    customerApply [⟨1, ["555"]⟩] [⟨10, "s", "d", (0, 0), (0, 0)⟩] "1" =
      [⟨10, "s", "d", (0, 0), (0, 0)⟩] ∧
    locationApply [⟨10, "s", "d", (0, 0), (0, 0)⟩] "-79.6, 43.6, -79.3, 43.7" =
      some [⟨10, "s", "d", (0, 0), (0, 0)⟩] :=
  C10_empty_match_returns_input [⟨1, ["555"]⟩] [⟨10, "s", "d", (0, 0), (0, 0)⟩]
    "1" (-398/5) (-793/10) (218/5) (437/10) "-79.6, 43.6, -79.3, 43.7"
    (by decide) (by decide)
    (by simp +decide [parseFloat, pySlice, digitsVal, List.takeWhile, List.dropWhile]
        norm_num)
    (by simp +decide [parseFloat, pySlice, digitsVal, List.takeWhile, List.dropWhile]
        norm_num)
    (by simp +decide [parseFloat, pySlice, digitsVal, List.takeWhile, List.dropWhile]
        norm_num)
    (by simp +decide [parseFloat, pySliceFrom, digitsVal, List.takeWhile, List.dropWhile]
        norm_num)
    (by norm_num) (by norm_num) (by norm_num) (by norm_num)
    (by norm_num [List.filter, locMatches])
